import Mathlib

/-!
Verification of the eufy-security-scrypted adapter (Session Manager slice).

The repository contains two evolving variants of the same plugin file
(`src/unnamed/part_000`, first variant lines 1-194, second variant lines
195-451) plus `src/src/logger.ts`. Both variants share an identical
`tryLogin` / `initializeClient` / event-handler structure; they differ only
in `deviceAdded`'s capability mapping. The definitions below are a shallow
embedding of that code: the plugin's mutable fields become a `PluginState`
record, each method or event handler becomes a pure state transformer, and
calls into the host or the vendor client library are recorded as `Effect`
values in an explicit trace.
-/

/-- JS truthiness of an optional string setting value: `undefined` and the
empty string are falsy, every other string is truthy. -/
def jsTruthy : Option String → Bool
  | none => false
  | some s => s ≠ ""

/-- Embeds `EufyLogger.getMessage` (src/src/logger.ts lines 20-28): the
optional message, and when optional parameters are present, a space and
their JSON rendering appended. -/
def jsonStringify (params : List String) : String :=
  "[" ++ String.intercalate "," (params.map (fun p => "\x22" ++ p ++ "\x22")) ++ "]"

/-- Embeds the message formatting of `EufyLogger.getMessage`. -/
def getMessage (message : Option String) (optionalParams : List String) : String :=
  let msg := message.getD ""
  if optionalParams.length > 0 then msg ++ " " ++ jsonStringify optionalParams else msg

/-- Settings values held by the plugin's `settingsStorage`
(src/unnamed/part_000 lines 38-75). `country` has a default value, the
string-typed optional settings may be absent. -/
structure SettingsValues where
  country : String
  email : Option String
  password : Option String
  trustedDeviceName : Option String
  captchaId : Option String
deriving Repr, DecidableEq

/-- The `P2PConnectionType` enumeration member used by the plugin. -/
inductive P2PConnectionType
  | QUICKEST
deriving Repr, DecidableEq

/-- The `EufySecurityConfig` record built in `initializeClient`
(src/unnamed/part_000 lines 115-123). -/
structure EufySecurityConfig where
  username : Option String
  password : Option String
  country : String
  trustedDeviceName : Option String
  p2pConnectionSetup : P2PConnectionType
  pollingIntervalMinutes : Nat
  eventDurationSeconds : Nat
deriving Repr, DecidableEq

/-- The `CaptchaOptions` payload attached to a connect call
(src/unnamed/part_000 lines 101-108). -/
structure CaptchaOptions where
  captchaCode : String
  captchaId : Option String
deriving Repr, DecidableEq

/-- The argument record of `client.connect` (src/unnamed/part_000
line 111). -/
structure ConnectOptions where
  verifyCode : Option String
  captcha : Option CaptchaOptions
  force : Bool
deriving Repr, DecidableEq

/-- The capability interfaces this adapter ever declares. -/
inductive ScryptedInterface
  | VideoCamera
  | Battery
  | MotionSensor
  | Camera
  | OnOff
deriving Repr, DecidableEq

/-- Device type used by the registration descriptor. -/
inductive ScryptedDeviceType
  | Camera
deriving Repr, DecidableEq

/-- The `info` block of a registration descriptor (src/unnamed/part_000
lines 165-170). -/
structure DeviceInfo where
  model : String
  manufacturer : String
  firmware : String
  serialNumber : String
deriving Repr, DecidableEq

/-- The host registration descriptor built by `deviceAdded`
(src/unnamed/part_000 lines 164-175). -/
structure Device where
  info : DeviceInfo
  nativeId : String
  name : String
  type : ScryptedDeviceType
  interfaces : List ScryptedInterface
deriving Repr, DecidableEq

/-- The data `deviceAdded` reads off a discovered vendor device object:
`isCamera`, `getName()`, `getModel()`, `getSerial()`,
`getSoftwareVersion()`, `hasBattery()` and `hasProperty('motionDetection')`
(the latter modelled as the boolean `hasMotionDetection`). -/
structure EufyDeviceRec where
  isCamera : Bool
  name : String
  model : String
  serial : String
  softwareVersion : String
  hasBattery : Bool
  hasMotionDetection : Bool
deriving Repr, DecidableEq

/-- The handle stored in the plugin's `devices` map: the
`EufySecurityCamera` constructed at discovery, which captures the native
id, the client that was live at construction (identified by its
generation number) and the vendor device. -/
structure EufySecurityCamera where
  nativeId : String
  client : Nat
  device : EufyDeviceRec
deriving Repr, DecidableEq

/-- The mutable fields of `EufySecurityPlugin`, plus a trace-friendly
rendering of its two log channels: `alerts` is the operator-facing alert
log (`log.a` appends, `clearAlerts` empties), `logLines` the ordinary
console log. `clientGen` identifies the client currently referenced by
`this.client` (0 when no client has been created yet) and `nextGen`
allocates fresh client identities. `registered` records the
`deviceManager.onDeviceDiscovered` calls issued to the host. -/
structure PluginState where
  settings : SettingsValues
  alerts : List String
  logLines : List String
  clientGen : Nat
  nextGen : Nat
  devices : List (String × EufySecurityCamera)
  registered : List Device
  name : String
deriving Repr, DecidableEq

/-- Observable side effects of a `tryLogin` run, in program order. -/
inductive Effect
  | clearAlerts
  | alert (msg : String)
  | debug (msg : String)
  | info (msg : String)
  | initializeClient (cfg : EufySecurityConfig)
  | connect (opts : ConnectOptions)
deriving Repr, DecidableEq

/-- The operator-visible text carried by an effect, when it has one. The
configuration handed to the vendor client is not operator-visible text. -/
def messageOf : Effect → Option String
  | Effect.alert m => some m
  | Effect.debug m => some m
  | Effect.info m => some m
  | _ => none

/-- The sequence of operator-visible message strings of a trace. -/
def emittedMessages (tr : List Effect) : List String :=
  tr.filterMap messageOf

/-- The alert raised when the credential precondition fails
(src/unnamed/part_000 line 95). -/
def missingCredsAlert : String :=
  "Enter your Eufy email and password to complete setup."

/-- The configuration `initializeClient` builds from the current settings
(src/unnamed/part_000 lines 115-123). -/
def configFrom (s : PluginState) : EufySecurityConfig :=
  { username := s.settings.email
    password := s.settings.password
    country := s.settings.country
    trustedDeviceName := s.settings.trustedDeviceName
    p2pConnectionSetup := P2PConnectionType.QUICKEST
    pollingIntervalMinutes := 10
    eventDurationSeconds := 10 }

/-- Embeds `initializeClient` (src/unnamed/part_000 lines 114-145): a new
client is created from the current settings and replaces `this.client`
(modelled by advancing `clientGen` to a fresh generation); the event
handlers are registered on it. Returns the new state and the
configuration passed to `EufySecurity.initialize`. -/
def initializeClient (s : PluginState) : PluginState × EufySecurityConfig :=
  ({ s with clientGen := s.nextGen, nextGen := s.nextGen + 1 }, configFrom s)

/-- Embeds `tryLogin` (src/unnamed/part_000 lines 91-112; identical in the
second variant, lines 349-370). Returns the final state, the trace of
effects in program order, and either the thrown error message or the
options of the connect call that was issued. The credential guard is
transcribed exactly as written in the source: it tests
`!values.email || !values.email` - the email setting twice - and never
tests the password. -/
def tryLogin (s : PluginState) (twoFactorCode captchaCode : Option String) :
    PluginState × List Effect × Except String ConnectOptions :=
  let s0 := { s with alerts := [] }
  if !(jsTruthy s0.settings.email) || !(jsTruthy s0.settings.email) then
    ({ s0 with alerts := s0.alerts ++ [missingCredsAlert] },
     [Effect.clearAlerts, Effect.alert missingCredsAlert],
     Except.error "Eufy email and password are missing.")
  else
    let p := initializeClient s0
    let captchaOptions : Option CaptchaOptions :=
      if jsTruthy captchaCode then
        some { captchaCode := captchaCode.getD "", captchaId := p.1.settings.captchaId }
      else none
    let s2 := { p.1 with logLines := p.1.logLines ++ ["connect client"] }
    let opts : ConnectOptions :=
      { verifyCode := twoFactorCode, captcha := captchaOptions, force := false }
    (s2,
     [Effect.clearAlerts, Effect.initializeClient p.2,
      Effect.debug "connect client", Effect.connect opts],
     Except.ok opts)

/-- The constant alert raised by the `tfa request` handler
(src/unnamed/part_000 line 129). -/
def tfaAlertText : String :=
  "Login failed: 2FA is enabled, check your email or texts for your code, then enter it into the Two Factor Code setting to conplete login."

/-- Embeds the `tfa request` handler (src/unnamed/part_000 lines
128-130). -/
def tfaRequestHandler (s : PluginState) : PluginState :=
  { s with alerts := s.alerts ++ [tfaAlertText] }

/-- The fixed leading part of the captcha alert, up to the embedded image
payload (src/unnamed/part_000 line 132). -/
def captchaAlertHead : String :=
  "Login failed: Captcha was requested, fill out the Captcha setting to conplete login. </br> <img src=\x22"

/-- The captcha alert text for a given image payload. -/
def captchaAlertFor (captcha : String) : String :=
  captchaAlertHead ++ (captcha ++ "\x22 />")

/-- Embeds the `captcha request` handler (src/unnamed/part_000 lines
131-134): raises the alert embedding the captcha image and persists the
challenge id in the `captchaId` setting. -/
def captchaRequestHandler (s : PluginState) (id captcha : String) : PluginState :=
  { s with
    alerts := s.alerts ++ [captchaAlertFor captcha]
    settings := { s.settings with captchaId := some id } }

/-- Embeds the `connect` handler (src/unnamed/part_000 lines 135-138): a
debug line, then `clearAlerts`. `now` stands for the wall-clock string the
code interpolates. -/
def connectHandler (s : PluginState) (now : String) : PluginState :=
  { s with
    logLines := s.logLines ++ ["[" ++ s.name ++ "] (" ++ now ++ ") Client connected."]
    alerts := [] }

/-- The spec's ChallengeState type: {None, TwoFactorPending,
CaptchaPending}. The code has no variable of this type; see
`challengeOf`. -/
inductive ChallengeState
  | noChallenge
  | twoFactorPending
  | captchaPending
deriving Repr, DecidableEq

/-- Recognizes the captcha alert text (any image payload). -/
def isCaptchaAlertMsg (m : String) : Bool :=
  decide (m.data.take captchaAlertHead.data.length = captchaAlertHead.data)

/-- Modelled from the spec: the code has no explicit ChallengeState
variable; the spec's ChallengeState ({None, TwoFactorPending,
CaptchaPending}) is realized by the operator-visible challenge alerts -
raised by the `tfa request` / `captcha request` handlers, cleared by
`clearAlerts` at the start of every login attempt and by the `connect`
handler - together with the persisted `captchaId` setting holding the
pending identifier. This abstraction function reads the challenge state
off the alert log. -/
def challengeOf (s : PluginState) : ChallengeState :=
  if s.alerts.any isCaptchaAlertMsg then ChallengeState.captchaPending
  else if s.alerts.any (fun m => m == tfaAlertText) then ChallengeState.twoFactorPending
  else ChallengeState.noChallenge

/-- Capability mapping of the first variant's `deviceAdded`
(src/unnamed/part_000 lines 156-162): video always, battery when
`hasBattery()`, motion sensing when `hasProperty('motionDetection')`. -/
def interfacesFor (d : EufyDeviceRec) : List ScryptedInterface :=
  [ScryptedInterface.VideoCamera]
    ++ (if d.hasBattery then [ScryptedInterface.Battery] else [])
    ++ (if d.hasMotionDetection then [ScryptedInterface.MotionSensor] else [])

/-- Capability mapping of the second variant's `deviceAdded`
(src/unnamed/part_000 lines 414-418): video, still camera and on/off,
unconditionally. -/
def interfacesForV2 (_d : EufyDeviceRec) : List ScryptedInterface :=
  [ScryptedInterface.VideoCamera, ScryptedInterface.Camera, ScryptedInterface.OnOff]

/-- The registration descriptor `deviceAdded` builds for a discovered
camera, given the interface list of the variant at hand
(src/unnamed/part_000 lines 164-175 and 420-431). -/
def discoveredDevice (d : EufyDeviceRec) (interfaces : List ScryptedInterface) : Device :=
  { info :=
      { model := d.model
        manufacturer := "Eufy"
        firmware := d.softwareVersion
        serialNumber := d.serial }
    nativeId := d.serial
    name := d.name
    type := ScryptedDeviceType.Camera
    interfaces := interfaces }

/-- The log line for an ignored non-camera device (src/unnamed/part_000
line 149). -/
def ignoredDeviceMsg (name now : String) (d : EufyDeviceRec) : String :=
  getMessage (some ("[" ++ name ++ "] (" ++ now ++ ") Ignoring unsupported discovered device: "))
    [d.name, d.model]

/-- The log line for a discovered camera (src/unnamed/part_000 line
152). -/
def discoveredDeviceMsg (name now : String) (d : EufyDeviceRec) : String :=
  getMessage (some ("[" ++ name ++ "] (" ++ now ++ ") Device discovered: "))
    [d.name, d.model]

/-- JS `Map.set`: update in place when the key is present, append
otherwise. -/
def mapSet (m : List (String × EufySecurityCamera)) (k : String) (v : EufySecurityCamera) :
    List (String × EufySecurityCamera) :=
  if m.any (fun p => p.1 == k) then
    m.map (fun p => if p.1 == k then (k, v) else p)
  else m ++ [(k, v)]

/-- Embeds the first variant's `deviceAdded` (src/unnamed/part_000 lines
147-179): non-camera devices are logged and skipped; cameras are logged,
a handle is stored in the `devices` map and a registration descriptor is
sent to the host registry. -/
def deviceAdded (s : PluginState) (now : String) (d : EufyDeviceRec) : PluginState :=
  if !d.isCamera then
    { s with logLines := s.logLines ++ [ignoredDeviceMsg s.name now d] }
  else
    { s with
      logLines := s.logLines ++ [discoveredDeviceMsg s.name now d]
      devices := mapSet s.devices d.serial
        { nativeId := d.serial, client := s.clientGen, device := d }
      registered := s.registered ++ [discoveredDevice d (interfacesFor d)] }

/-- Embeds the second variant's `deviceAdded` (src/unnamed/part_000 lines
405-435); it differs from the first only in its interface list. -/
def deviceAddedV2 (s : PluginState) (now : String) (d : EufyDeviceRec) : PluginState :=
  if !d.isCamera then
    { s with logLines := s.logLines ++ [ignoredDeviceMsg s.name now d] }
  else
    { s with
      logLines := s.logLines ++ [discoveredDeviceMsg s.name now d]
      devices := mapSet s.devices d.serial
        { nativeId := d.serial, client := s.clientGen, device := d }
      registered := s.registered ++ [discoveredDevice d (interfacesForV2 d)] }

/-- The log line written by `releaseDevice` (src/unnamed/part_000 line
190). -/
def removedDeviceMsg (name now nativeId : String) : String :=
  "[" ++ name ++ "] (" ++ now ++ ") Device with id \x27" ++ nativeId ++ "\x27 was removed."

/-- Embeds `releaseDevice` (src/unnamed/part_000 lines 189-191, identical
in the second variant lines 445-447): it only writes a log line. -/
def releaseDevice (s : PluginState) (now _deviceId nativeId : String) : PluginState :=
  { s with logLines := s.logLines ++ [removedDeviceMsg s.name now nativeId] }

/-- Embeds `getDevice` (src/unnamed/part_000 lines 185-187): a lookup in
the `devices` map. -/
def getDevice (s : PluginState) (nativeId : String) : Option EufySecurityCamera :=
  (s.devices.find? (fun p => p.1 == nativeId)).map Prod.snd

/-- A plugin state with no credentials and empty logs, as after
construction. -/
def basePluginState : PluginState :=
  { settings :=
      { country := "US", email := none, password := none,
        trustedDeviceName := none, captchaId := none }
    alerts := []
    logLines := []
    clientGen := 0
    nextGen := 1
    devices := []
    registered := []
    name := "EufySecurityPlugin" }

/-!
Overlapping-login model. `tryLogin`'s non-failing path suspends at three
points: at `await EufySecurity.initialize` inside `initializeClient`, at
the resumption of `await this.initializeClient()`, and at
`await this.client.connect(...)`. Two overlapping calls therefore
interleave at the granularity of the atomic blocks below. `start` is the
block up to the initialize call; `initResolved` is the block run when the
initialize promise resolves, which assigns `this.client` and registers
handlers; `issueConnect` is the block that reads `this.client` and issues
the connect call on it. The code performs no generation tagging, so an
`initResolved` block assigns `this.client` unconditionally.
-/

/-- Identifies one of two overlapping `tryLogin` attempts. -/
inductive AttemptId
  | first
  | second
deriving Repr, DecidableEq

/-- One atomic block of an overlapping `tryLogin` attempt. -/
inductive LoginStep
  | start (a : AttemptId)
  | initResolved (a : AttemptId)
  | issueConnect (a : AttemptId)
deriving Repr, DecidableEq

/-- State shared by overlapping attempts: `client` is `this.client`
(identified by the attempt that created it), the program counters record
how far each attempt has run, and `connects` records on which client each
connect call was issued, in order. -/
structure AsyncState where
  client : Option AttemptId
  pcFirst : Nat
  pcSecond : Nat
  connects : List AttemptId
deriving Repr, DecidableEq

/-- Program counter of an attempt. -/
def AsyncState.pc (s : AsyncState) : AttemptId → Nat
  | AttemptId.first => s.pcFirst
  | AttemptId.second => s.pcSecond

/-- Update the program counter of an attempt. -/
def AsyncState.setPc (s : AsyncState) (a : AttemptId) (v : Nat) : AsyncState :=
  match a with
  | AttemptId.first => { s with pcFirst := v }
  | AttemptId.second => { s with pcSecond := v }

/-- One atomic block, enabled only in program order within its attempt.
`initResolved` assigns `this.client` unconditionally, exactly as
`this.client = await EufySecurity.initialize(...)` does (src/unnamed/
part_000 line 125); `issueConnect` issues the connect on whatever
`this.client` holds at that moment (line 111). -/
def stepRun (s : AsyncState) : LoginStep → Option AsyncState
  | LoginStep.start a => if s.pc a = 0 then some (s.setPc a 1) else none
  | LoginStep.initResolved a =>
      if s.pc a = 1 then some { s.setPc a 2 with client := some a } else none
  | LoginStep.issueConnect a =>
      if s.pc a = 2 then
        match s.client with
        | some c => some { s.setPc a 3 with connects := s.connects ++ [c] }
        | none => none
      else none

/-- Run a schedule of atomic blocks; `none` when some block is not
enabled, so a `some` result certifies a legal interleaving. -/
def runSchedule : AsyncState → List LoginStep → Option AsyncState
  | s, [] => some s
  | s, st :: rest =>
    match stepRun s st with
    | some s2 => runSchedule s2 rest
    | none => none

/-- Initial state: no client, neither attempt started. -/
def asyncInit : AsyncState :=
  { client := none, pcFirst := 0, pcSecond := 0, connects := [] }

/-- A legal interleaving in which the second attempt is issued before the
first one's connect resolves, the second attempt completes, and only then
does the first attempt's initialize promise resolve. -/
def overlappingSchedule : List LoginStep :=
  [LoginStep.start AttemptId.first, LoginStep.start AttemptId.second,
   LoginStep.initResolved AttemptId.second, LoginStep.issueConnect AttemptId.second,
   LoginStep.initResolved AttemptId.first, LoginStep.issueConnect AttemptId.first]

/-- The state `overlappingSchedule` ends in. -/
def finalOverlapState : AsyncState :=
  { client := some AttemptId.first, pcFirst := 3, pcSecond := 3,
    connects := [AttemptId.second, AttemptId.first] }

/-- The attempt whose `initResolved` block runs last in a schedule owns
the final `this.client`. -/
def lastClientAssigned (c : Option AttemptId) : List LoginStep → Option AttemptId
  | [] => c
  | LoginStep.initResolved a :: rest => lastClientAssigned (some a) rest
  | LoginStep.start _ :: rest => lastClientAssigned c rest
  | LoginStep.issueConnect _ :: rest => lastClientAssigned c rest

/-- How one atomic block changes `this.client`: only `initResolved`
touches it, and it overwrites it with its own attempt's client. -/
theorem stepRun_client (s s' : AsyncState) (st : LoginStep)
    (h : stepRun s st = some s') :
    s'.client = (match st with
      | LoginStep.initResolved a => some a
      | _ => s.client) := by
  cases st with
  | start a =>
    simp only [stepRun] at h
    split at h
    · cases h
      cases a <;> rfl
    · cases h
  | initResolved a =>
    simp only [stepRun] at h
    split at h
    · cases h
      rfl
    · cases h
  | issueConnect a =>
    simp only [stepRun] at h
    split at h
    · split at h
      · cases h
        cases a <;> rfl
      · cases h
    · cases h

/-- C6 (amended): overlapping `attemptLogin` calls interleave without any
staleness detection: `this.client` after any legal interleaving is the
client of whichever attempt's `initResolved` block ran last - which may be
the FIRST attempt, whose late completion then overwrites the client set by
the second. -/
theorem overlapping_login_last_init_owns_client (sched : List LoginStep)
    (s0 s : AsyncState) (h : runSchedule s0 sched = some s) :
    s.client = lastClientAssigned s0.client sched := by
  induction sched generalizing s0 with
  | nil =>
    simp only [runSchedule, Option.some.injEq] at h
    subst h
    rfl
  | cons st rest ih =>
    simp only [runSchedule] at h
    cases hst : stepRun s0 st with
    | none => rw [hst] at h; cases h
    | some s1 =>
      rw [hst] at h
      have hcl := ih s1 h
      have hc2 := stepRun_client s0 s1 st hst
      cases st with
      | start a => simpa [lastClientAssigned, hc2] using hcl
      | initResolved a => simpa [lastClientAssigned, hc2] using hcl
      | issueConnect a => simpa [lastClientAssigned, hc2] using hcl

/-- Witness for `overlapping_login_last_init_owns_client`: the concrete
overlapping schedule is a legal interleaving, and the theorem applied to
it identifies the final client as the last-resolving attempt's. -/
theorem overlapping_login_last_init_owns_client_witness :
    runSchedule asyncInit overlappingSchedule = some finalOverlapState ∧
    finalOverlapState.client = lastClientAssigned asyncInit.client overlappingSchedule :=
  ⟨by decide,
   overlapping_login_last_init_owns_client overlappingSchedule asyncInit finalOverlapState
     (by decide)⟩

/-- C6 (counterexample): a legal interleaving in which the second attempt
is issued before the first one's connect resolves, the second attempt
completes and owns `this.client`, and then the first attempt's late
initialize resolution overwrites it: the final live client is the FIRST
attempt's, and the first attempt's connect is even issued on it. This
refutes the claim that exactly the second attempt's session remains live
and that the first attempt's late completion cannot overwrite state set
by the second. -/
theorem overlapping_login_counterexample :
    runSchedule asyncInit overlappingSchedule = some finalOverlapState ∧
    finalOverlapState.client = some AttemptId.first ∧
    finalOverlapState.client ≠ some AttemptId.second ∧
    finalOverlapState.connects = [AttemptId.second, AttemptId.first] := by
  decide

/-- The captcha alert for any image payload is recognized by
`isCaptchaAlertMsg`. -/
theorem isCaptchaAlertMsg_captchaAlertFor (img : String) :
    isCaptchaAlertMsg (captchaAlertFor img) = true := by
  unfold isCaptchaAlertMsg captchaAlertFor
  simp only [decide_eq_true_eq, String.data_append]
  exact List.take_left _ _

/-- A concrete plugin state with a non-empty email and an EMPTY password
setting. -/
def emptyPasswordState : PluginState :=
  { basePluginState with
    settings := { basePluginState.settings with
                  email := some "user@example.com", password := some "" } }

/-- C1: refuted by the code. The guard in `tryLogin` tests the email
setting twice (`!values.email || !values.email`) and never the password,
so in a state whose password setting is empty (and email non-empty) the
call does NOT throw: it initializes a fresh client (the client generation
advances) and issues a connect call to the vendor service, raising no
alert - contradicting the claimed ConfigurationError behaviour for empty
passwords. -/
theorem tryLogin_empty_password_still_connects :
    jsTruthy emptyPasswordState.settings.password = false ∧
    (tryLogin emptyPasswordState none none).2.2 =
      Except.ok { verifyCode := none, captcha := none, force := false } ∧
    Effect.connect { verifyCode := none, captcha := none, force := false } ∈
      (tryLogin emptyPasswordState none none).2.1 ∧
    (tryLogin emptyPasswordState none none).1.clientGen = 1 ∧
    (tryLogin emptyPasswordState none none).1.alerts = [] := by
  refine ⟨by decide, rfl, by decide, rfl, rfl⟩

/-- C2 (amended): the first variant's capability mapping includes video
streaming always, battery iff the device reports a battery, and motion
sensing iff the device reports motion-detection support; the second
variant's `deviceAdded` registers exactly video streaming, still camera
and on/off, unconditionally. Both variants put their respective interface
list into the registration descriptor sent to the host. -/
theorem deviceAdded_capability_mapping (d : EufyDeviceRec) (s : PluginState) (now : String) :
    ScryptedInterface.VideoCamera ∈ interfacesFor d ∧
    (ScryptedInterface.Battery ∈ interfacesFor d ↔ d.hasBattery = true) ∧
    (ScryptedInterface.MotionSensor ∈ interfacesFor d ↔ d.hasMotionDetection = true) ∧
    interfacesForV2 d =
      [ScryptedInterface.VideoCamera, ScryptedInterface.Camera, ScryptedInterface.OnOff] ∧
    (deviceAdded s now d).registered =
      (if d.isCamera then s.registered ++ [discoveredDevice d (interfacesFor d)]
       else s.registered) ∧
    (deviceAddedV2 s now d).registered =
      (if d.isCamera then s.registered ++ [discoveredDevice d (interfacesForV2 d)]
       else s.registered) := by
  refine ⟨?_, ?_, ?_, rfl, ?_, ?_⟩
  · simp [interfacesFor]
  · cases hb : d.hasBattery <;> cases hm : d.hasMotionDetection <;>
      simp [interfacesFor, hb, hm]
  · cases hb : d.hasBattery <;> cases hm : d.hasMotionDetection <;>
      simp [interfacesFor, hb, hm]
  · cases hc : d.isCamera <;> simp [deviceAdded, hc]
  · cases hc : d.isCamera <;> simp [deviceAddedV2, hc]

/-- A concrete camera device that reports having a battery and supporting
motion detection. -/
def batteryCamera : EufyDeviceRec :=
  { isCamera := true, name := "Doorbell", model := "T8210", serial := "SN1",
    softwareVersion := "2.0", hasBattery := true, hasMotionDetection := true }

/-- C2 (counterexample): under the second variant's `deviceAdded`, a
discovered camera that reports having a battery is registered WITHOUT the
battery capability (and without motion sensing), so the claimed
battery-iff mapping fails on the code as a whole. -/
theorem deviceAddedV2_drops_battery_capability :
    batteryCamera.hasBattery = true ∧
    (deviceAddedV2 basePluginState "t0" batteryCamera).registered.map Device.interfaces =
      [[ScryptedInterface.VideoCamera, ScryptedInterface.Camera, ScryptedInterface.OnOff]] ∧
    ((deviceAddedV2 basePluginState "t0" batteryCamera).registered.all
      (fun dev => !(dev.interfaces.contains ScryptedInterface.Battery))) = true := by
  decide

/-- C4: after the `connect` event handler runs, the alert log is empty
and the derived challenge state is None: no two-factor or captcha prompt
remains visible to the operator. -/
theorem connect_event_clears_alerts_and_challenge (s : PluginState) (now : String) :
    (connectHandler s now).alerts = [] ∧
    challengeOf (connectHandler s now) = ChallengeState.noChallenge := by
  exact ⟨rfl, rfl⟩

/-- C5: a discovered device reporting `isCamera = false` is only logged:
both variants of `deviceAdded` leave the device map and the host
registrations unchanged and append exactly the ignore line to the log. -/
theorem deviceAdded_noncamera_only_logs (s : PluginState) (now : String)
    (d : EufyDeviceRec) (h : d.isCamera = false) :
    (deviceAdded s now d).devices = s.devices ∧
    (deviceAdded s now d).registered = s.registered ∧
    (deviceAdded s now d).logLines = s.logLines ++ [ignoredDeviceMsg s.name now d] ∧
    (deviceAddedV2 s now d).devices = s.devices ∧
    (deviceAddedV2 s now d).registered = s.registered ∧
    (deviceAddedV2 s now d).logLines = s.logLines ++ [ignoredDeviceMsg s.name now d] := by
  simp [deviceAdded, deviceAddedV2, h]

/-- A concrete non-camera device (a station-like hub). -/
def nonCameraDevice : EufyDeviceRec :=
  { isCamera := false, name := "HomeBase", model := "T8010", serial := "SN0",
    softwareVersion := "1.0", hasBattery := false, hasMotionDetection := false }

/-- Witness for `deviceAdded_noncamera_only_logs` at a concrete
non-camera device. -/
theorem deviceAdded_noncamera_only_logs_witness :
    nonCameraDevice.isCamera = false ∧
    ((deviceAdded basePluginState "t0" nonCameraDevice).devices = basePluginState.devices ∧
     (deviceAdded basePluginState "t0" nonCameraDevice).registered = basePluginState.registered ∧
     (deviceAdded basePluginState "t0" nonCameraDevice).logLines =
       basePluginState.logLines ++ [ignoredDeviceMsg basePluginState.name "t0" nonCameraDevice] ∧
     (deviceAddedV2 basePluginState "t0" nonCameraDevice).devices = basePluginState.devices ∧
     (deviceAddedV2 basePluginState "t0" nonCameraDevice).registered = basePluginState.registered ∧
     (deviceAddedV2 basePluginState "t0" nonCameraDevice).logLines =
       basePluginState.logLines ++ [ignoredDeviceMsg basePluginState.name "t0" nonCameraDevice]) :=
  ⟨by decide, deviceAdded_noncamera_only_logs basePluginState "t0" nonCameraDevice (by decide)⟩

/-- C8: every `tryLogin` call clears the alert log as its very first
effect, before the credential guard is evaluated and before any other
side effect: the first element of its effect trace is `clearAlerts` in
both the failing and the successful branch. -/
theorem tryLogin_clears_alerts_first (s : PluginState) (tfa cap : Option String) :
    (tryLogin s tfa cap).2.1.head? = some Effect.clearAlerts := by
  simp only [tryLogin]
  split <;> rfl

/-- C10: `releaseDevice` only logs: the device map is unchanged, every
`getDevice` lookup returns the same handle before and after the call, and
exactly the removal line is appended to the log. -/
theorem releaseDevice_only_logs (s : PluginState) (now deviceId nativeId x : String) :
    getDevice (releaseDevice s now deviceId nativeId) x = getDevice s x ∧
    (releaseDevice s now deviceId nativeId).devices = s.devices ∧
    (releaseDevice s now deviceId nativeId).logLines =
      s.logLines ++ [removedDeviceMsg s.name now nativeId] := by
  exact ⟨rfl, rfl, rfl⟩

/-- A concrete plugin state with non-empty email and password settings. -/
def credState : PluginState :=
  { basePluginState with
    settings := { basePluginState.settings with
                  email := some "user@example.com", password := some "hunter2" } }

/-- C3: a `captcha request` event records its id as the persisted captcha
identifier and leaves the derived challenge state CaptchaPending; a
subsequent `tryLogin` carrying a (non-empty) captcha code submits to the
connect call exactly the pair of that code and the last-persisted
identifier. -/
theorem captcha_request_then_login_submits_pair (s : PluginState)
    (cid img code : String) (tfa : Option String)
    (hemail : jsTruthy s.settings.email = true) (hcode : code ≠ "") :
    (captchaRequestHandler s cid img).settings.captchaId = some cid ∧
    challengeOf (captchaRequestHandler s cid img) = ChallengeState.captchaPending ∧
    (tryLogin (captchaRequestHandler s cid img) tfa (some code)).2.2 =
      Except.ok { verifyCode := tfa,
                  captcha := some { captchaCode := code, captchaId := some cid },
                  force := false } ∧
    Effect.connect { verifyCode := tfa,
                     captcha := some { captchaCode := code, captchaId := some cid },
                     force := false } ∈
      (tryLogin (captchaRequestHandler s cid img) tfa (some code)).2.1 := by
  have hc2 : jsTruthy (some code) = true := by simp [jsTruthy, hcode]
  refine ⟨rfl, ?_, ?_, ?_⟩
  · simp [challengeOf, captchaRequestHandler, isCaptchaAlertMsg_captchaAlertFor]
  · simp [tryLogin, captchaRequestHandler, initializeClient, hemail, hc2]
  · simp [tryLogin, captchaRequestHandler, initializeClient, hemail, hc2]

/-- Witness for `captcha_request_then_login_submits_pair` at a concrete
state, challenge id and captcha code. -/
theorem captcha_request_then_login_submits_pair_witness :
    jsTruthy credState.settings.email = true ∧ ("0413" : String) ≠ "" ∧
    ((captchaRequestHandler credState "cid-1" "img-1").settings.captchaId = some "cid-1" ∧
     challengeOf (captchaRequestHandler credState "cid-1" "img-1") =
       ChallengeState.captchaPending ∧
     (tryLogin (captchaRequestHandler credState "cid-1" "img-1") none (some "0413")).2.2 =
       Except.ok { verifyCode := none,
                   captcha := some { captchaCode := "0413", captchaId := some "cid-1" },
                   force := false } ∧
     Effect.connect { verifyCode := none,
                      captcha := some { captchaCode := "0413", captchaId := some "cid-1" },
                      force := false } ∈
       (tryLogin (captchaRequestHandler credState "cid-1" "img-1") none (some "0413")).2.1) :=
  ⟨by decide, by decide,
   captcha_request_then_login_submits_pair credState "cid-1" "img-1" "0413" none
     (by decide) (by decide)⟩

/-- C7: every connect call issued by `tryLogin` carries the supplied
two-factor code as its `verifyCode` and `force := false`. -/
theorem connect_attaches_verifyCode_and_never_forces (s : PluginState)
    (tfa cap : Option String) (o : ConnectOptions)
    (h : Effect.connect o ∈ (tryLogin s tfa cap).2.1) :
    o.verifyCode = tfa ∧ o.force = false := by
  simp only [tryLogin] at h
  split at h
  · simp at h
  · simp [List.mem_cons] at h
    subst h
    exact ⟨rfl, rfl⟩

/-- Witness for `connect_attaches_verifyCode_and_never_forces` at a
concrete state carrying a two-factor code. -/
theorem connect_attaches_verifyCode_and_never_forces_witness :
    (Effect.connect { verifyCode := some "123456", captcha := none, force := false } ∈
      (tryLogin credState (some "123456") none).2.1) ∧
    ((ConnectOptions.mk (some "123456") none false).verifyCode = some "123456" ∧
     (ConnectOptions.mk (some "123456") none false).force = false) :=
  ⟨by decide,
   connect_attaches_verifyCode_and_never_forces credState (some "123456") none
     (ConnectOptions.mk (some "123456") none false) (by decide)⟩

/-- States that agree on everything except the email and password
credential settings. -/
def credEquiv (s1 s2 : PluginState) : Prop :=
  s1.settings.country = s2.settings.country ∧
  s1.settings.trustedDeviceName = s2.settings.trustedDeviceName ∧
  s1.settings.captchaId = s2.settings.captchaId ∧
  s1.alerts = s2.alerts ∧ s1.logLines = s2.logLines ∧
  s1.clientGen = s2.clientGen ∧ s1.nextGen = s2.nextGen ∧
  s1.devices = s2.devices ∧ s1.registered = s2.registered ∧ s1.name = s2.name

/-- C9 (counterexample): two credential states that differ only in the
credential settings - one with no email, one with an email - make
`tryLogin` emit DIFFERENT message sequences (the missing-credentials
alert versus the connect debug line), so the message text is not
identical for every pair of credential values. -/
theorem emitted_messages_depend_on_credentials :
    credEquiv basePluginState credState ∧
    emittedMessages (tryLogin basePluginState none none).2.1 ≠
      emittedMessages (tryLogin credState none none).2.1 :=
  ⟨⟨rfl, rfl, rfl, rfl, rfl, rfl, rfl, rfl, rfl, rfl⟩, by decide⟩

/-- C9 (amended): two runs whose credential states agree on whether the
email setting is populated (the one bit the guard branches on) emit
identical operator-visible message strings from `tryLogin`, and every
event-handler message is independent of the credential values outright:
no credential value ever appears in log or alert text. -/
theorem messages_credential_independent (s1 s2 : PluginState)
    (h : credEquiv s1 s2)
    (he : jsTruthy s1.settings.email = jsTruthy s2.settings.email)
    (tfa cap : Option String) (cid img now : String) :
    emittedMessages (tryLogin s1 tfa cap).2.1 = emittedMessages (tryLogin s2 tfa cap).2.1 ∧
    (tryLogin s1 tfa cap).1.alerts = (tryLogin s2 tfa cap).1.alerts ∧
    (tfaRequestHandler s1).alerts = (tfaRequestHandler s2).alerts ∧
    (captchaRequestHandler s1 cid img).alerts = (captchaRequestHandler s2 cid img).alerts ∧
    (connectHandler s1 now).alerts = (connectHandler s2 now).alerts ∧
    (connectHandler s1 now).logLines = (connectHandler s2 now).logLines := by
  obtain ⟨hc, ht, hcap, hal, hll, hg, hn, hd, hr, hnm⟩ := h
  refine ⟨?_, ?_, ?_, ?_, ?_, ?_⟩
  · cases h1 : jsTruthy s1.settings.email with
    | false =>
      have h2 : jsTruthy s2.settings.email = false := by rw [← he, h1]
      simp [tryLogin, h1, h2, emittedMessages, messageOf]
    | true =>
      have h2 : jsTruthy s2.settings.email = true := by rw [← he, h1]
      simp [tryLogin, h1, h2, emittedMessages, messageOf, initializeClient]
  · cases h1 : jsTruthy s1.settings.email with
    | false =>
      have h2 : jsTruthy s2.settings.email = false := by rw [← he, h1]
      simp [tryLogin, h1, h2]
    | true =>
      have h2 : jsTruthy s2.settings.email = true := by rw [← he, h1]
      simp [tryLogin, h1, h2, initializeClient]
  · simp [tfaRequestHandler, hal]
  · simp [captchaRequestHandler, hal]
  · simp [connectHandler]
  · simp [connectHandler, hll, hnm]

/-- A second concrete credential state with different non-empty email and
password values. -/
def credStateB : PluginState :=
  { basePluginState with
    settings := { basePluginState.settings with
                  email := some "other@example.org", password := some "s3cret" } }

/-- Witness for `messages_credential_independent`: two states with
different non-empty credentials emit the same `tryLogin` messages. -/
theorem messages_credential_independent_witness :
    credEquiv credState credStateB ∧
    jsTruthy credState.settings.email = jsTruthy credStateB.settings.email ∧
    emittedMessages (tryLogin credState none none).2.1 =
      emittedMessages (tryLogin credStateB none none).2.1 :=
  ⟨⟨rfl, rfl, rfl, rfl, rfl, rfl, rfl, rfl, rfl, rfl⟩, by decide,
   (messages_credential_independent credState credStateB
     ⟨rfl, rfl, rfl, rfl, rfl, rfl, rfl, rfl, rfl, rfl⟩ (by decide)
     none none "cid" "img" "t0").1⟩
